import Mathlib

/-
Shallow embedding of the EpicTok dashboard pipeline (src/app.py).

Effectful calls to the outside world (HTTP requests, file writes, the
ffmpeg subprocess, the cloud video backend) are modelled by explicit
outcome parameters supplied in an environment record; each embedded
function mirrors the control flow of its Python counterpart on those
outcomes.  File writes are modelled as atomic: a write either happens
in full or an exception is raised and nothing is persisted.
-/

namespace EpicTok

/-- A fact record as built by `get_historical_event` (src/app.py:41).
The Wikipedia path populates all five keys; the local fallback events
carry only `title`, `extract` and `year`, so `id` and `url` are
`Option`s, `none` meaning the key is absent from the Python dict. -/
structure Event where
  id : Option String
  title : String
  extract : String
  year : String
  url : Option String
deriving DecidableEq

/-- A word character for the purposes of the `\b` boundary in
`extract_year`'s regex (ASCII fragment of Python `\w`). -/
def isWordChar (c : Char) : Bool := c.isAlphanum || c == '_'

/-- Does the 4-character window match `1[0-9]{3}|20[0-2][0-9]`
(src/app.py:73)? -/
def yearPat (a b c d : Char) : Bool :=
  (a == '1' && b.isDigit && c.isDigit && d.isDigit) ||
  (a == '2' && b == '0' && (c == '0' || c == '1' || c == '2') && d.isDigit)

/-- The `\b` boundary after the 4-digit match: end of string or a
non-word character. -/
def boundaryAfter : List Char → Bool
  | [] => true
  | e :: _ => !isWordChar e

/-- Leftmost-match scan of `re.search(r'\b(1[0-9]{3}|20[0-2][0-9])\b', text)`.
The flag records whether the previous character is a word character
(the `\b` boundary before the match). -/
def extract_year_aux : Bool → List Char → Option String
  | _, [] => none
  | prevW, c0 :: rest =>
    match rest with
    | c1 :: c2 :: c3 :: rest3 =>
      if !prevW && yearPat c0 c1 c2 c3 && boundaryAfter rest3 then
        some (String.mk [c0, c1, c2, c3])
      else
        extract_year_aux (isWordChar c0) rest
    | _ => none

/-- `extract_year` (src/app.py:70): first year-looking token, else
`"Unknown"`. -/
def extract_year (text : String) : String :=
  (extract_year_aux false text.toList).getD "Unknown"

/-- Parsed fields of the Wikipedia random-summary response; the Python
code reads each with `.get(key, "")` so every field is a total string. -/
structure WikiSummary where
  pageid : String
  title : String
  extract : String
  pageUrl : String
deriving DecidableEq

/-- Outcome of the `requests.get` call inside `get_historical_event`:
either an exception (network fault, JSON parse error, ...) or a
response with an HTTP status code and parsed data. -/
inductive FetchOutcome where
  | exc (msg : String)
  | resp (statusCode : Nat) (data : WikiSummary)
deriving DecidableEq

/-- The fixed local fallback list (src/app.py:61-67).  These dicts have
no `id` and no `url` key. -/
def fallback_events : List Event :=
  [ { id := none, title := "The Fall of Constantinople"
    , extract := "In 1453, Constantinople fell to the Ottoman Empire, ending the Byzantine Empire and marking the end of the Middle Ages."
    , year := "1453", url := none }
  , { id := none, title := "The First Flight"
    , extract := "On December 17, 1903, the Wright brothers made the first powered flight in Kitty Hawk, North Carolina."
    , year := "1903", url := none }
  , { id := none, title := "The Moon Landing"
    , extract := "On July 20, 1969, Neil Armstrong became the first human to set foot on the moon."
    , year := "1969", url := none }
  , { id := none, title := "The Printing Press"
    , extract := "In 1440, Johannes Gutenberg invented the printing press, revolutionizing the spread of knowledge."
    , year := "1440", url := none }
  , { id := none, title := "The French Revolution"
    , extract := "Beginning in 1789, the French Revolution overthrew the monarchy and established a republic."
    , year := "1789", url := none } ]

/-- `random.choice(fallback_events)`, modelled by an index taken
modulo the list length. -/
def fallback_choice (choice : Nat) : Event :=
  fallback_events.getD (choice % fallback_events.length)
    { id := none, title := "", extract := "", year := "", url := none }

/-- `get_historical_event` (src/app.py:41-68): on a 200 response build
the event from the response data; on any other status code or any
exception fall through to the fallback list. -/
def get_historical_event (outcome : FetchOutcome) (choice : Nat) : Event :=
  match outcome with
  | .resp code data =>
      if code = 200 then
        { id := some data.pageid
        , title := data.title
        , extract := data.extract
        , year := extract_year data.extract
        , url := some data.pageUrl }
      else
        fallback_choice choice
  | .exc _ => fallback_choice choice

/-- `get_years_ago` (src/app.py:76): parse the year string as an
integer and subtract from the current year; on a parse failure return
`"many"`.  The result is rendered into a string by the caller's
f-string, so it is modelled as a string. -/
def get_years_ago (nowYear : Int) (year_str : String) : String :=
  match year_str.toInt? with
  | some y => toString (nowYear - y)
  | none => "many"

/-- The five hook templates of `generate_script` (src/app.py:85-91). -/
def hooks (nowYear : Int) (e : Event) : List String :=
  [ "In " ++ e.year ++ ", something happened that changed everything."
  , "Most people do not know what really happened in " ++ e.year ++ "."
  , "This moment in " ++ e.year ++ " shaped our world forever."
  , "What you are about to hear happened " ++ get_years_ago nowYear e.year ++ " years ago."
  , "The year was " ++ e.year ++ ". Nobody saw this coming." ]

/-- `generate_script` (src/app.py:83-104): a random hook (modelled by
an index modulo 5), the title, the extract and a fixed outro, joined
by blank lines and stripped. -/
def generate_script (nowYear : Int) (hookIdx : Nat) (e : Event) : String :=
  let hook := (hooks nowYear e).getD (hookIdx % (hooks nowYear e).length) ""
  (hook ++ "\n\n" ++ e.title ++ ".\n\n" ++ e.extract ++
    "\n\nThis is history that deserves to be remembered.\n").trim

/-- The five style fragments of `generate_image_prompt`
(src/app.py:108-114). -/
def styles : List String :=
  [ "dramatic oil painting style"
  , "vintage photograph style"
  , "epic cinematic scene"
  , "historical illustration"
  , "dramatic black and white photography" ]

/-- `generate_image_prompt` (src/app.py:106-117). -/
def generate_image_prompt (styleIdx : Nat) (e : Event) : String :=
  e.title ++ ", " ++ e.year ++ ", " ++ styles.getD (styleIdx % styles.length) "" ++
    ", historical scene, dramatic lighting, detailed, cinematic composition"

/-- The title sanitizer inside `save_project` (src/app.py:122): keep
alphanumerics, space, dash and underscore; strip trailing whitespace;
truncate to 50 characters; replace spaces by underscores. -/
def safe_title (title : String) : String :=
  String.mk
    ((((title.toList.filter fun c =>
          c.isAlphanum || c == ' ' || c == '-' || c == '_').reverse.dropWhile
            Char.isWhitespace).reverse.take 50).map
      fun c => if c == ' ' then '_' else c)

/-- The persisted Project Record, the content of `metadata.json`
(src/app.py:127-136).  `completed_at` is `none` until the key is added
on full success (src/app.py:395). -/
structure Metadata where
  id : String
  title : String
  year : String
  script : String
  image_prompt : String
  created_at : String
  source_url : String
  status : String
  completed_at : Option String
deriving DecidableEq

/-- `save_project` (src/app.py:119-144), returning the metadata record
it persists.  `timestamp` models `datetime.now().strftime(...)` and
`createdAt` models `datetime.now().isoformat()`; `event.get("url", "")`
becomes `getD ""`. -/
def save_project (timestamp createdAt : String) (styleIdx : Nat)
    (e : Event) (script : String) : Metadata :=
  { id := timestamp ++ "_" ++ safe_title e.title
  , title := e.title
  , year := e.year
  , script := script
  , image_prompt := generate_image_prompt styleIdx e
  , created_at := createdAt
  , source_url := e.url.getD ""
  , status := "created"
  , completed_at := none }

/-- One value of the in-memory Job Status Record (an entry of the
`job_status` dict, src/app.py:35).  `project_id`, `title` and `year`
are `none` unless the record carries them (only the terminal
`completed` and `manual` records do). -/
structure StatusRecord where
  status : String
  progress : Nat
  message : String
  project_id : Option String
  title : Option String
  year : Option String
deriving DecidableEq

/-- Build a status record carrying only status/progress/message. -/
def rec3 (status : String) (progress : Nat) (message : String) : StatusRecord :=
  { status := status, progress := progress, message := message
  , project_id := none, title := none, year := none }

/-- How many times each Media Generator function was invoked during
one run of `process_job`. -/
structure GenCalls where
  image : Nat
  voice : Nat
  video : Nat
  nova : Nat
deriving DecidableEq

/-- Environment of one `process_job` run: the outcomes of every
effectful call it makes.  `generate_image`, `generate_voiceover`,
`create_video` and `create_video_with_nova` catch their own exceptions
and return a `(success, message)` pair (src/app.py:146-345), so their
outcomes are pairs; `save_project`'s file writes and the final
metadata rewrite (src/app.py:396) are bare I/O that may raise, so
their outcomes are an optional exception message. -/
structure JobEnv where
  fetchOutcome : FetchOutcome
  fallbackChoice : Nat
  nowYear : Int
  hookIdx : Nat
  styleIdx : Nat
  timestamp : String
  createdAt : String
  completedAt : String
  saveExc : Option String
  imgResult : Bool × String
  voiceResult : Bool × String
  videoResult : Bool × String
  novaResult : Bool × String
  updateExc : Option String

/-- The observable effects of one `process_job` run: the successive
values written to `job_status[job_id]`, the Media Generator call
counts, and the successive metadata records persisted to
`metadata.json` (in write order). -/
structure JobRun where
  records : List StatusRecord
  calls : GenCalls
  metaWrites : List Metadata
deriving DecidableEq

/-- The fact record fetched during a run. -/
def job_event (env : JobEnv) : Event :=
  get_historical_event env.fetchOutcome env.fallbackChoice

/-- The script generated during a run. -/
def job_script (env : JobEnv) : String :=
  generate_script env.nowYear env.hookIdx (job_event env)

/-- The metadata record persisted by the saving step of a run. -/
def job_metadata (env : JobEnv) : Metadata :=
  save_project env.timestamp env.createdAt env.styleIdx (job_event env) (job_script env)

/-- `process_job` (src/app.py:347-418).  The record list mirrors every
assignment to `job_status[job_id]` in order; the outer
`try ... except` is modelled by the branches on `saveExc` and
`updateExc`, the only calls in the sequence that can raise. -/
def process_job (auto_generate use_nova : Bool) (env : JobEnv) : JobRun :=
  let r0 := rec3 "starting" 0 "Starting..."
  let r1 := rec3 "fetching" 10 "Fetching historical event..."
  let r2 := rec3 "scripting" 20 "Generating script..."
  let r3 := rec3 "saving" 30 "Creating project..."
  match env.saveExc with
  | some e =>
      { records := [r0, r1, r2, r3, rec3 "error" 0 e]
      , calls := { image := 0, voice := 0, video := 0, nova := 0 }
      , metaWrites := [] }
  | none =>
    let metadata := job_metadata env
    if auto_generate then
      let r4 := rec3 "image" 50 "Generating image with AI..."
      if !env.imgResult.1 then
        { records := [r0, r1, r2, r3, r4,
            rec3 "error" 50 ("Image failed: " ++ env.imgResult.2)]
        , calls := { image := 1, voice := 0, video := 0, nova := 0 }
        , metaWrites := [metadata] }
      else
        let r5 := rec3 "voice" 70 "Generating voiceover..."
        if !env.voiceResult.1 then
          { records := [r0, r1, r2, r3, r4, r5,
              rec3 "error" 70 ("Voice failed: " ++ env.voiceResult.2)]
          , calls := { image := 1, voice := 1, video := 0, nova := 0 }
          , metaWrites := [metadata] }
        else
          let r6 := if use_nova then
              rec3 "video" 85 "Generating AI video with Nova (2-5 min)..."
            else
              rec3 "video" 90 "Assembling video..."
          let videoRes := if use_nova then env.novaResult else env.videoResult
          let calls : GenCalls :=
            if use_nova then { image := 1, voice := 1, video := 0, nova := 1 }
            else { image := 1, voice := 1, video := 1, nova := 0 }
          if !videoRes.1 then
            { records := [r0, r1, r2, r3, r4, r5, r6,
                rec3 "error" 90 ("Video failed: " ++ videoRes.2)]
            , calls := calls
            , metaWrites := [metadata] }
          else
            match env.updateExc with
            | some e =>
                { records := [r0, r1, r2, r3, r4, r5, r6, rec3 "error" 0 e]
                , calls := calls
                , metaWrites := [metadata] }
            | none =>
                let metadata2 := { metadata with
                  status := "completed", completed_at := some env.completedAt }
                { records := [r0, r1, r2, r3, r4, r5, r6,
                    { status := "completed", progress := 100
                    , message := "Video complete!"
                    , project_id := some metadata.id
                    , title := some metadata.title
                    , year := some metadata.year }]
                , calls := calls
                , metaWrites := [metadata, metadata2] }
    else
      { records := [r0, r1, r2, r3,
          { status := "manual", progress := 100
          , message := "Project ready - add image and voiceover"
          , project_id := some metadata.id
          , title := some metadata.title
          , year := some metadata.year }]
      , calls := { image := 0, voice := 0, video := 0, nova := 0 }
      , metaWrites := [metadata] }

/-- The record written by the submit endpoint when a job is enqueued
(src/app.py:468). -/
def queued_record : StatusRecord := rec3 "queued" 0 "Queued..."

/-- All Job Status Record values written for one job over one run,
from the initial queued record through `process_job`. -/
def job_trace (auto_generate use_nova : Bool) (env : JobEnv) : List StatusRecord :=
  queued_record :: (process_job auto_generate use_nova env).records

/-- A job is in a terminal status. -/
def isTerminal (r : StatusRecord) : Bool :=
  r.status == "completed" || r.status == "manual" || r.status == "error"

/-- An item put on `job_queue`: the submit endpoint enqueues a
`(job_id, use_nova)` tuple (src/app.py:467); the worker also accepts a
bare job id for which `use_nova` defaults to false (src/app.py:426-430). -/
inductive QueueItem where
  | pair (job_id : String) (use_nova : Bool)
  | bare (job_id : String)
deriving DecidableEq

/-- The JSON body of a submit request.  The endpoint reads only the
`use_nova` key (src/app.py:464); `auto_generate` models any other key
a client might send, which the endpoint ignores. -/
structure GenRequest where
  use_nova : Bool
  auto_generate : Bool
deriving DecidableEq

/-- The `/api/generate` endpoint (src/app.py:460-469): enqueue
`(job_id, use_nova)` and write the queued status record. -/
def generate (req : GenRequest) (job_id : String) : QueueItem × StatusRecord :=
  (QueueItem.pair job_id req.use_nova, queued_record)

/-- One iteration of `job_worker` (src/app.py:420-432) on a dequeued
item: unpack the backend choice and run `process_job` with
`auto_generate=True`. -/
def job_worker_dispatch (item : QueueItem) (env : JobEnv) : JobRun :=
  match item with
  | .pair _ nova => process_job true nova env
  | .bare _ => process_job true false env

/-- One entry of the Project Store directory (`PROJECTS_DIR`), as seen
by the query surface: its name, whether it is a directory, the parsed
`metadata.json` if that file exists, and presence of the three
artifact files. -/
structure DirEntry where
  name : String
  isDir : Bool
  metadata : Option Metadata
  hasVideo : Bool
  hasImage : Bool
  hasVoice : Bool

/-- The record returned by `list_projects` for one project: the loaded
metadata augmented with the three artifact-presence flags
(src/app.py:454-456). -/
structure ProjView where
  meta : Metadata
  has_video : Bool
  has_image : Bool
  has_voice : Bool
deriving DecidableEq

/-- Newest-first order on directory entries:
`sorted(PROJECTS_DIR.iterdir(), reverse=True)` compares paths by name,
so entry `a` precedes entry `b` when `b.name ≤ a.name`. -/
def newestFirst (a b : DirEntry) : Prop := b.name ≤ a.name

instance : DecidableRel newestFirst := fun a b => by
  unfold newestFirst; infer_instance

instance : IsTotal DirEntry newestFirst :=
  ⟨fun a b => le_total b.name a.name⟩

instance : IsTrans DirEntry newestFirst :=
  ⟨fun _ _ _ hab hbc => le_trans hbc hab⟩

/-- The view built for a qualifying directory entry. -/
def projView (d : DirEntry) (m : Metadata) : ProjView :=
  { meta := m, has_video := d.hasVideo, has_image := d.hasImage
  , has_voice := d.hasVoice }

/-- `list_projects` (src/app.py:443-458): walk the directory listing in
reverse lexicographic order, keep directories that hold a metadata
record, and return their metadata annotated with artifact presence. -/
def list_projects (fs : List DirEntry) : List ProjView :=
  (List.insertionSort newestFirst fs).filterMap fun d =>
    if d.isDir then
      match d.metadata with
      | some m => some (projView d m)
      | none => none
    else none

/-- The statistics object returned by `/api/stats` (src/app.py:512-516).
Python integer subtraction is modelled on `Int`. -/
structure Stats where
  total_projects : Nat
  completed_videos : Nat
  pending : Int
deriving DecidableEq

/-- `get_stats` (src/app.py:499-516): count project directories and
those containing a final video artifact. -/
def get_stats (fs : List DirEntry) : Stats :=
  let total := (fs.filter fun d => d.isDir).length
  let completed := (fs.filter fun d => d.isDir && d.hasVideo).length
  { total_projects := total
  , completed_videos := completed
  , pending := (total : Int) - (completed : Int) }

/-! ## Helper lemmas and concrete environments -/

/-- The fallback choice always lands inside the fallback list. -/
lemma fallback_choice_mem (choice : Nat) : fallback_choice choice ∈ fallback_events := by
  have h : choice % fallback_events.length < fallback_events.length :=
    Nat.mod_lt _ (by decide)
  rw [fallback_choice, List.getD_eq_getElem _ _ h]
  exact List.getElem_mem h

/-- Filtering with a conjunction yields a sublist of filtering with one
conjunct. -/
lemma filter_and_sublist (fs : List DirEntry) (p q : DirEntry → Bool) :
    (fs.filter fun d => p d && q d).Sublist (fs.filter p) := by
  induction fs with
  | nil => simp
  | cons x xs ih =>
      by_cases hp : p x <;> by_cases hq : q x <;>
        simp only [List.filter_cons, hp, hq, Bool.and_self, Bool.and_false, Bool.and_true,
          Bool.false_and, Bool.true_and, if_true, if_false]
      · exact ih.cons₂ x
      · exact ih.cons x
      · exact ih
      · exact ih

/-- A run environment in which every external call succeeds. -/
def envHappy : JobEnv :=
  { fetchOutcome := .exc "connection reset", fallbackChoice := 2, nowYear := 2026
  , hookIdx := 0, styleIdx := 0, timestamp := "20260101_120000"
  , createdAt := "2026-01-01T12:00:00", completedAt := "2026-01-01T12:05:00"
  , saveExc := none
  , imgResult := (true, "scene.jpg"), voiceResult := (true, "voiceover.mp3")
  , videoResult := (true, "final_video.mp4")
  , novaResult := (true, "final_video.mp4"), updateExc := none }

/-- A run environment in which the image generator fails. -/
def envImgFail : JobEnv :=
  { envHappy with imgResult := (false, "Image API Error: 500") }

/-- A run environment in which the cloud video backend fails. -/
def envNovaFail : JobEnv :=
  { envHappy with novaResult := (false, "Timeout waiting for Nova") }

/-- A run environment in which `save_project` raises. -/
def envSaveExc : JobEnv :=
  { envHappy with saveExc := some "[Errno 28] No space left on device" }

/-- A run environment in which the final metadata rewrite raises. -/
def envUpdateExc : JobEnv :=
  { envHappy with updateExc := some "[Errno 5] Input/output error" }

/-! ## Claims -/

/-- C4, counterexample: the claim says every value returned by
`get_historical_event` contains identifier and source URL fields, but
on the fallback path (here: a network exception) the returned record
has neither — the fallback dicts carry only title, extract and year. -/
theorem c4_counterexample :
    ¬ ((get_historical_event (FetchOutcome.exc "connection reset") 0).id.isSome ∧
       (get_historical_event (FetchOutcome.exc "connection reset") 0).url.isSome) := by
  decide

/-- C4 (amended): `get_historical_event` never fails: on any exception
or any non-200 response it returns an element of the fixed local
fallback list; the returned value always carries title, extract text
and inferred year, but the identifier and source URL fields are
populated only on the successful 200 path — fallback values have
neither. -/
theorem c4_event_source_fallback (outcome : FetchOutcome) (choice : Nat) :
    (∀ msg, outcome = FetchOutcome.exc msg →
        get_historical_event outcome choice ∈ fallback_events ∧
        (get_historical_event outcome choice).id = none ∧
        (get_historical_event outcome choice).url = none) ∧
    (∀ code data, outcome = FetchOutcome.resp code data → code ≠ 200 →
        get_historical_event outcome choice ∈ fallback_events ∧
        (get_historical_event outcome choice).id = none ∧
        (get_historical_event outcome choice).url = none) ∧
    (∀ data, outcome = FetchOutcome.resp 200 data →
        (get_historical_event outcome choice).id = some data.pageid ∧
        (get_historical_event outcome choice).url = some data.pageUrl ∧
        (get_historical_event outcome choice).title = data.title ∧
        (get_historical_event outcome choice).extract = data.extract ∧
        (get_historical_event outcome choice).year = extract_year data.extract) := by
  have hmem := fallback_choice_mem choice
  have hfields : (fallback_choice choice).id = none ∧ (fallback_choice choice).url = none := by
    have : ∀ e ∈ fallback_events, e.id = none ∧ e.url = none := by decide
    exact this _ hmem
  refine ⟨?_, ?_, ?_⟩
  · rintro msg rfl
    exact ⟨hmem, hfields.1, hfields.2⟩
  · rintro code data rfl hne
    simp only [get_historical_event, if_neg hne]
    exact ⟨hmem, hfields.1, hfields.2⟩
  · rintro data rfl
    simp [get_historical_event]

/-- C4, witness: the amended theorem applied at a concrete exception
outcome and at a concrete 200 response. -/
theorem c4_witness :
    (get_historical_event (FetchOutcome.exc "connection reset") 2 ∈ fallback_events ∧
      (get_historical_event (FetchOutcome.exc "connection reset") 2).id = none ∧
      (get_historical_event (FetchOutcome.exc "connection reset") 2).url = none) ∧
    (get_historical_event (FetchOutcome.resp 503 ⟨"1", "t", "e", "u"⟩) 0 ∈ fallback_events) ∧
    ((get_historical_event (FetchOutcome.resp 200 ⟨"1", "t", "e", "u"⟩) 0).id = some "1") :=
  ⟨(c4_event_source_fallback (FetchOutcome.exc "connection reset") 2).1 _ rfl,
   ((c4_event_source_fallback (FetchOutcome.resp 503 ⟨"1", "t", "e", "u"⟩) 0).2.1
      503 ⟨"1", "t", "e", "u"⟩ rfl (by decide)).1,
   ((c4_event_source_fallback (FetchOutcome.resp 200 ⟨"1", "t", "e", "u"⟩) 0).2.2
      ⟨"1", "t", "e", "u"⟩ rfl).1⟩

/-- C10: the aggregate statistics satisfy
pending = total − completed and completed ≤ total, hence pending ≥ 0:
every directory counted as completed is also counted in total. -/
theorem c10_stats (fs : List DirEntry) :
    (get_stats fs).completed_videos ≤ (get_stats fs).total_projects ∧
    (get_stats fs).pending =
      ((get_stats fs).total_projects : Int) - ((get_stats fs).completed_videos : Int) ∧
    0 ≤ (get_stats fs).pending := by
  have hle : (fs.filter fun d => d.isDir && d.hasVideo).length ≤
      (fs.filter fun d => d.isDir).length :=
    (filter_and_sublist fs (fun d => d.isDir) (fun d => d.hasVideo)).length_le
  refine ⟨hle, rfl, ?_⟩
  simp only [get_stats]
  omega

/-- C3: with auto_generate true, if the image generator fails the job
ends with status=error at progress exactly 50, the message embeds the
returned failure reason, and neither the voice generator nor any video
generator is invoked (image was invoked once). -/
theorem c3_image_failure (use_nova : Bool) (env : JobEnv)
    (hsave : env.saveExc = none) (himg : env.imgResult.1 = false) :
    (process_job true use_nova env).records.getLast? =
      some (rec3 "error" 50 ("Image failed: " ++ env.imgResult.2)) ∧
    (process_job true use_nova env).calls.image = 1 ∧
    (process_job true use_nova env).calls.voice = 0 ∧
    (process_job true use_nova env).calls.video = 0 ∧
    (process_job true use_nova env).calls.nova = 0 := by
  simp [process_job, hsave, himg]

/-- C3, witness: the theorem applied to a concrete failing-image run. -/
theorem c3_witness :
    (process_job true false envImgFail).records.getLast? =
      some (rec3 "error" 50 ("Image failed: " ++ envImgFail.imgResult.2)) ∧
    (process_job true false envImgFail).calls.image = 1 ∧
    (process_job true false envImgFail).calls.voice = 0 ∧
    (process_job true false envImgFail).calls.video = 0 ∧
    (process_job true false envImgFail).calls.nova = 0 :=
  c3_image_failure false envImgFail rfl rfl

/-- C7: with auto_generate false and a successful saving step, the run
ends with status=manual at progress 100 carrying the project id, title
and year, and no Media Generator is invoked at all. -/
theorem c7_manual_terminal (use_nova : Bool) (env : JobEnv)
    (hsave : env.saveExc = none) :
    (process_job false use_nova env).records.getLast? =
      some { status := "manual", progress := 100
           , message := "Project ready - add image and voiceover"
           , project_id := some (job_metadata env).id
           , title := some (job_metadata env).title
           , year := some (job_metadata env).year } ∧
    (process_job false use_nova env).calls =
      { image := 0, voice := 0, video := 0, nova := 0 } := by
  simp [process_job, hsave]

/-- C7, witness: the theorem applied to a concrete manual run. -/
theorem c7_witness :
    (process_job false false envHappy).records.getLast? =
      some { status := "manual", progress := 100
           , message := "Project ready - add image and voiceover"
           , project_id := some (job_metadata envHappy).id
           , title := some (job_metadata envHappy).title
           , year := some (job_metadata envHappy).year } ∧
    (process_job false false envHappy).calls =
      { image := 0, voice := 0, video := 0, nova := 0 } :=
  c7_manual_terminal false envHappy rfl

/-- C1, counterexample: with the cloud backend chosen (use_nova) and
the video step failing, the error record written by `process_job` has
progress 90, not the claimed 85 — the code hard-codes 90 in the
video-failure record for both backends (src/app.py:390). -/
theorem c1_counterexample :
    (process_job true true envNovaFail).records.getLast? =
      some (rec3 "error" 90 "Video failed: Timeout waiting for Nova") ∧
    (rec3 "error" 90 "Video failed: Timeout waiting for Nova").progress ≠ 85 := by
  constructor
  · rfl
  · decide

/-- C1 (amended): when auto_generate is true and the video-assembly
step fails, the job ends with status=error at progress 90 regardless
of which backend was chosen (even though the cloud-backend step record
was written at 85), the message embeds the failure reason, and the
Project Record is not updated — the only metadata ever persisted is
the original record with status "created". -/
theorem c1_video_failure (use_nova : Bool) (env : JobEnv)
    (hsave : env.saveExc = none) (himg : env.imgResult.1 = true)
    (hvoice : env.voiceResult.1 = true)
    (hvid : (if use_nova then env.novaResult else env.videoResult).1 = false) :
    (process_job true use_nova env).records.getLast? =
      some (rec3 "error" 90
        ("Video failed: " ++ (if use_nova then env.novaResult else env.videoResult).2)) ∧
    (process_job true use_nova env).metaWrites = [job_metadata env] ∧
    ∀ m ∈ (process_job true use_nova env).metaWrites, m.status = "created" := by
  cases use_nova <;>
    simp_all [process_job, job_metadata, save_project]

/-- C1, witness: the amended theorem applied to a concrete failing
cloud-backend run. -/
theorem c1_witness :
    (process_job true true envNovaFail).records.getLast? =
      some (rec3 "error" 90
        ("Video failed: " ++ (if true then envNovaFail.novaResult else envNovaFail.videoResult).2)) ∧
    (process_job true true envNovaFail).metaWrites = [job_metadata envNovaFail] ∧
    ∀ m ∈ (process_job true true envNovaFail).metaWrites, m.status = "created" :=
  c1_video_failure true envNovaFail rfl rfl rfl rfl

/-- C5: any exception raised inside the step sequence that no step
converts to a failure result — in this code, an exception from
`save_project`'s file writes or from the final metadata rewrite — is
caught at the orchestrator's outer boundary and converted to a final
record with status=error, progress=0 and the stringified exception as
message; `process_job` is a total function, so it always returns
normally to the Worker Loop. -/
theorem c5_outer_catch (auto_generate use_nova : Bool) (env : JobEnv) (e : String) :
    (env.saveExc = some e →
      (process_job auto_generate use_nova env).records.getLast? =
        some (rec3 "error" 0 e)) ∧
    (env.saveExc = none → auto_generate = true → env.imgResult.1 = true →
      env.voiceResult.1 = true →
      (if use_nova then env.novaResult else env.videoResult).1 = true →
      env.updateExc = some e →
      (process_job auto_generate use_nova env).records.getLast? =
        some (rec3 "error" 0 e)) := by
  constructor
  · intro hsave
    simp [process_job, hsave]
  · intro hsave hauto himg hvoice hvid hupd
    subst hauto
    cases use_nova <;> simp_all [process_job]

/-- C5, witness: the theorem applied to a concrete run where
`save_project` raises, and to one where the final metadata rewrite
raises. -/
theorem c5_witness :
    ((process_job true false envSaveExc).records.getLast? =
      some (rec3 "error" 0 "[Errno 28] No space left on device")) ∧
    ((process_job true false envUpdateExc).records.getLast? =
      some (rec3 "error" 0 "[Errno 5] Input/output error")) :=
  ⟨(c5_outer_catch true false envSaveExc "[Errno 28] No space left on device").1 rfl,
   (c5_outer_catch true false envUpdateExc "[Errno 5] Input/output error").2
     rfl rfl rfl rfl rfl rfl⟩

/-- C6: whenever the saving step succeeds, the first metadata record
persisted has status exactly "created" and no completion timestamp; a
metadata record with status "completed" is persisted only when
auto_generate is true and the image, voice and selected video steps
all succeed, and it then carries the completion timestamp; on a run
ending in manual or error no persisted record ever has status
"completed". -/
theorem c6_project_record (auto_generate use_nova : Bool) (env : JobEnv) :
    (env.saveExc = none →
      ∃ m, (process_job auto_generate use_nova env).metaWrites.head? = some m ∧
        m.status = "created" ∧ m.completed_at = none) ∧
    (∀ m ∈ (process_job auto_generate use_nova env).metaWrites,
      m.status = "completed" →
        m.completed_at = some env.completedAt ∧ auto_generate = true ∧
        env.imgResult.1 = true ∧ env.voiceResult.1 = true ∧
        (if use_nova then env.novaResult else env.videoResult).1 = true) ∧
    (∀ r, (process_job auto_generate use_nova env).records.getLast? = some r →
      (r.status = "manual" ∨ r.status = "error") →
      ∀ m ∈ (process_job auto_generate use_nova env).metaWrites,
        m.status ≠ "completed") := by
  rcases hsave : env.saveExc with _ | e <;>
    rcases hauto : auto_generate with _ | _ <;>
    rcases hnova : use_nova with _ | _ <;>
    rcases himg : env.imgResult.1 with _ | _ <;>
    rcases hvoice : env.voiceResult.1 with _ | _ <;>
    rcases hvid : env.videoResult.1 with _ | _ <;>
    rcases hnvid : env.novaResult.1 with _ | _ <;>
    rcases hupd : env.updateExc with _ | u <;>
    simp_all [process_job, job_metadata, save_project]

/-- C6, witness: the theorem applied to a concrete fully successful
run; its first conjunct instantiated, its second conjunct instantiated
at the persisted completed record, and the manual/error conjunct
exercised on a failing-video run. -/
theorem c6_witness :
    (∃ m, (process_job true false envHappy).metaWrites.head? = some m ∧
      m.status = "created" ∧ m.completed_at = none) ∧
    ((process_job true false envHappy).metaWrites.getLast (by decide)).completed_at =
      some envHappy.completedAt ∧
    ∀ m ∈ (process_job true true envNovaFail).metaWrites, m.status ≠ "completed" := by
  refine ⟨(c6_project_record true false envHappy).1 rfl, ?_, ?_⟩
  · exact ((c6_project_record true false envHappy).2.1
      ((process_job true false envHappy).metaWrites.getLast (by decide))
      (List.getLast_mem _) (by decide)).1
  · exact (c6_project_record true true envNovaFail).2.2
      (rec3 "error" 90 "Video failed: Timeout waiting for Nova") rfl (Or.inr rfl)

/-- No record of a run with auto_generate true ever has status
"manual": the manual branch is only reachable with auto_generate
false. -/
lemma records_not_manual (use_nova : Bool) (env : JobEnv) :
    ∀ r ∈ (process_job true use_nova env).records, r.status ≠ "manual" := by
  rcases hsave : env.saveExc with _ | e <;>
    cases use_nova <;>
    rcases himg : env.imgResult.1 with _ | _ <;>
    rcases hvoice : env.voiceResult.1 with _ | _ <;>
    rcases hvid : env.videoResult.1 with _ | _ <;>
    rcases hnvid : env.novaResult.1 with _ | _ <;>
    rcases hupd : env.updateExc with _ | u <;>
    simp_all [process_job, rec3, List.forall_mem_cons]

/-- C9: the submit endpoint reads only the backend-choice flag from
the request (two requests agreeing on `use_nova` produce the same
queue item and the same queued record), and the worker always invokes
the orchestrator with auto_generate true, so no record of a job
submitted through the public interface — from the queued record
through the whole run — ever has status "manual". -/
theorem c9_submit_forces_auto (req : GenRequest) (job_id : String) (env : JobEnv) :
    (∀ req2 : GenRequest, req2.use_nova = req.use_nova →
        generate req2 job_id = generate req job_id) ∧
    (∀ r ∈ queued_record :: (job_worker_dispatch (generate req job_id).1 env).records,
        r.status ≠ "manual") := by
  constructor
  · intro req2 h
    simp [generate, h]
  · intro r hr
    rcases List.mem_cons.mp hr with rfl | hr
    · simp [queued_record, rec3]
    · exact records_not_manual req.use_nova env r hr

/-- C9, witness: two concrete requests agreeing on the backend flag
map to the same submission, and the queued record of a concrete
submitted job is not manual. -/
theorem c9_witness :
    generate ⟨true, false⟩ "job_20260101_120000_1234" =
      generate ⟨true, true⟩ "job_20260101_120000_1234" ∧
    queued_record.status ≠ "manual" :=
  ⟨(c9_submit_forces_auto ⟨true, true⟩ "job_20260101_120000_1234" envHappy).1
      ⟨true, false⟩ rfl,
   (c9_submit_forces_auto ⟨true, true⟩ "job_20260101_120000_1234" envHappy).2
      queued_record (List.mem_cons_self _ _)⟩

set_option maxHeartbeats 2000000 in
/-- C2: over one run, the trace of Job Status Record values is
nonempty, every record before the final one is non-terminal, the
progress values before the final record form a non-decreasing
sequence, and the final record's status is one of
completed/manual/error. -/
theorem c2_progress_monotone (auto_generate use_nova : Bool) (env : JobEnv) :
    job_trace auto_generate use_nova env ≠ [] ∧
    (∀ r ∈ (job_trace auto_generate use_nova env).dropLast, isTerminal r = false) ∧
    List.Chain' (fun a b => a.progress ≤ b.progress)
      ((job_trace auto_generate use_nova env).dropLast) ∧
    (∃ last, (job_trace auto_generate use_nova env).getLast? = some last ∧
      isTerminal last = true) := by
  rcases hsave : env.saveExc with _ | e <;>
    cases auto_generate <;>
    cases use_nova <;>
    rcases himg : env.imgResult.1 with _ | _ <;>
    rcases hvoice : env.voiceResult.1 with _ | _ <;>
    rcases hvid : env.videoResult.1 with _ | _ <;>
    rcases hnvid : env.novaResult.1 with _ | _ <;>
    rcases hupd : env.updateExc with _ | u <;>
    simp_all [job_trace, process_job, queued_record, rec3, isTerminal,
      List.forall_mem_cons, List.dropLast, List.chain'_cons]

/-- C2, witness: the theorem applied to a concrete fully successful
run, with the non-terminality of a concrete intermediate record
instantiated. -/
theorem c2_witness :
    job_trace true false envHappy ≠ [] ∧
    isTerminal (rec3 "image" 50 "Generating image with AI...") = false ∧
    List.Chain' (fun a b => a.progress ≤ b.progress)
      ((job_trace true false envHappy).dropLast) ∧
    (∃ last, (job_trace true false envHappy).getLast? = some last ∧
      isTerminal last = true) := by
  have h := c2_progress_monotone true false envHappy
  exact ⟨h.1, h.2.1 (rec3 "image" 50 "Generating image with AI...") (by decide),
    h.2.2.1, h.2.2.2⟩

/-- A placeholder metadata value for `Option.getD`; never the result
of `getD` on a qualifying entry, whose metadata is present. -/
def dummyMeta : Metadata :=
  { id := "", title := "", year := "", script := "", image_prompt := ""
  , created_at := "", source_url := "", status := "", completed_at := none }

/-- The body of `list_projects` rewritten: filtering the qualifying
directories first and then building the views gives the same list. -/
lemma filterMap_projView (l : List DirEntry) :
    (l.filterMap fun d =>
      if d.isDir then
        match d.metadata with
        | some m => some (projView d m)
        | none => none
      else none) =
    (l.filter fun d => d.isDir && d.metadata.isSome).map
      (fun d => projView d (d.metadata.getD dummyMeta)) := by
  induction l with
  | nil => rfl
  | cons x xs ih =>
      by_cases hd : x.isDir
      · rcases hm : x.metadata with _ | m <;>
          simp [List.filterMap_cons, List.filter_cons, hd, hm, ih]
      · simp [List.filterMap_cons, List.filter_cons, hd, ih]

/-- C8: `list_projects` returns one record per directory that holds a
metadata record (a permutation of the qualifying entries, skipping
directories without metadata and non-directories), the records appear
in reverse lexicographic order of directory name (newest-first), and
each record's has_video/has_image/has_voice flags equal exactly the
presence of the corresponding artifact file in that directory (the
`projView` of its entry). -/
theorem c8_list_projects (fs : List DirEntry) :
    List.Pairwise newestFirst
      ((List.insertionSort newestFirst fs).filter fun d => d.isDir && d.metadata.isSome) ∧
    ((List.insertionSort newestFirst fs).filter fun d => d.isDir && d.metadata.isSome).Perm
      (fs.filter fun d => d.isDir && d.metadata.isSome) ∧
    list_projects fs =
      ((List.insertionSort newestFirst fs).filter fun d => d.isDir && d.metadata.isSome).map
        (fun d => projView d (d.metadata.getD dummyMeta)) ∧
    (list_projects fs).length =
      (fs.filter fun d => d.isDir && d.metadata.isSome).length := by
  have hsorted : List.Pairwise newestFirst (List.insertionSort newestFirst fs) :=
    List.sorted_insertionSort newestFirst fs
  have hpair := hsorted.sublist
    (List.filter_sublist (p := fun d => d.isDir && d.metadata.isSome) _)
  have hperm := (List.perm_insertionSort newestFirst fs).filter
    (fun d => d.isDir && d.metadata.isSome)
  have heq : list_projects fs =
      ((List.insertionSort newestFirst fs).filter fun d => d.isDir && d.metadata.isSome).map
        (fun d => projView d (d.metadata.getD dummyMeta)) := by
    rw [list_projects]
    exact filterMap_projView (List.insertionSort newestFirst fs)
  refine ⟨hpair, hperm, heq, ?_⟩
  rw [heq, List.length_map]
  exact hperm.length_eq

end EpicTok
